import Mathlib

/-!
Verification of the GROMACS topology-file interaction resolver
(`forcebalance/gmxio.py`): the `ITP_Reader` finite-state line classifier,
the `parse_atomtype_line` atom-type record parser, and the two lookup
tables `fdict` / `pdict`.

The Python code is shallowly embedded: the reader's mutable attributes
(`sec`, `nbtype`, `res`, `adict`, the module-global `pdict`, `itype`,
`suffix`, `ln`) become an explicit state record, `feed` becomes a state
transition returning `Except` (Python exceptions become `.error` with the
exception's name), and Python's `str.split`, `int(...)`, `float(...)`,
negative-index list access and dict operations are modelled by executable
Lean functions below.  Lines are assumed not to contain a newline
character (the caller feeds single physical lines).  A raised exception is
modelled as `.error` discarding the post-state; partial mutations a Python
exception would leave behind (the line counter, and in the `atomtypes`
branch a `pdict` write preceding a failing type lookup) are therefore not
observable in this model — no property below depends on the state after a
raise.
-/

/-- Python `str.split()` (split on runs of whitespace, no empty fields):
accumulator-based worker over the character list. -/
def splitWsAux : List Char → List Char → List String
  | cur, [] => if cur.isEmpty then [] else [String.mk cur.reverse]
  | cur, c :: cs =>
    if c.isWhitespace then
      if cur.isEmpty then splitWsAux [] cs
      else String.mk cur.reverse :: splitWsAux [] cs
    else splitWsAux (c :: cur) cs

/-- Python `line.split()` as used in `ITP_Reader.feed` (line 238). -/
def pySplit (line : String) : List String :=
  splitWsAux [] line.toList

/-- Characters of `line.split(';')[0]`: everything before the first semicolon. -/
def beforeSemi : List Char → List Char
  | [] => []
  | c :: cs => if c = ';' then [] else c :: beforeSemi cs

/-- Python `line.split(';')[0]` (comment stripping in `parse_atomtype_line`). -/
def stripComment (line : String) : String :=
  String.mk (beforeSemi line.toList)

/-- Python `re.match('^;', line)`: the line starts with a semicolon. -/
def startsWithSemi (line : String) : Bool :=
  match line.toList with
  | [] => false
  | c :: _ => c = ';'

/-- Python `re.match('^\[.*\]', line)`: first character is `[` and a `]`
occurs later in the line. -/
def isSectionHeader (line : String) : Bool :=
  match line.toList with
  | [] => false
  | c :: rest => c = '[' && rest.contains ']'

/-- Python `re.sub('[\[\] \n]', '', line)`: delete brackets, spaces and
newlines, yielding the section name (line 247). -/
def sectionName (line : String) : String :=
  String.mk (line.toList.filter fun c => ¬ (c = '[' ∨ c = ']' ∨ c = ' ' ∨ c = '\n'))

/-- The guard of `feed`'s first early return (line 243):
`len(s) == 0 or match('^;', line)`. -/
def isSkippable (line : String) : Bool :=
  (pySplit line).isEmpty || startsWithSemi line

/-- Numeric value of a list of decimal digit characters. -/
def digitsVal (cs : List Char) : Nat :=
  cs.foldl (fun a c => a * 10 + (c.toNat - '0'.toNat)) 0

/-- Python `int(w)` on a whitespace-free token: optional sign followed by
one or more decimal digits; any other token raises `ValueError` (`none`). -/
def pyInt (w : String) : Option Int :=
  match w.toList with
  | [] => none
  | '-' :: rest =>
    if ¬ rest.isEmpty ∧ rest.all (·.isDigit) then some (-(digitsVal rest : Int)) else none
  | '+' :: rest =>
    if ¬ rest.isEmpty ∧ rest.all (·.isDigit) then some (digitsVal rest) else none
  | cs =>
    if cs.all (·.isDigit) then some (digitsVal cs) else none

/-- `nifty.isint` (imported by the source, its own module not in scope).
Modelled from the spec: "if it parses as an integer, it is an atomic
number" — acceptance of an optional sign followed by digits. -/
def isint (w : String) : Bool :=
  (pyInt w).isSome

/-- Python list indexing `l[i]` with an `int` index: negative indices wrap
from the end; out-of-range indices raise `IndexError` (`none`). -/
def pyIndex {α : Type} (l : List α) (i : Int) : Option α :=
  if 0 ≤ i then l.get? i.toNat
  else if (-i).toNat ≤ l.length then l.get? (l.length - (-i).toNat) else none

/-- Mantissa of a Python float literal: digit/dot characters with at most
one dot and at least one digit. -/
def isMantissa (cs : List Char) : Bool :=
  cs.all (fun c => c.isDigit || c = '.') && cs.count '.' ≤ 1 && cs.any (·.isDigit)

/-- Nonempty all-digit character list. -/
def isDigits (cs : List Char) : Bool :=
  ¬ cs.isEmpty && cs.all (·.isDigit)

/-- Unsigned part of a Python float literal, with optional exponent. -/
def isFloatCore (cs : List Char) : Bool :=
  let mant := cs.takeWhile fun c => ¬ (c = 'e' ∨ c = 'E')
  match cs.dropWhile (fun c => ¬ (c = 'e' ∨ c = 'E')) with
  | [] => isMantissa mant
  | _ :: rexp =>
    isMantissa mant &&
      (match rexp with
       | '-' :: ds => isDigits ds
       | '+' :: ds => isDigits ds
       | ds => isDigits ds)

/-- Python `float(w)` on a token: we only model success/failure (`none` is
`ValueError`), returning the raw token on success — no numeric claim in
this development depends on the floating-point value itself. -/
def pyFloatTok (w : String) : Option String :=
  let ok := match w.toList with
    | '-' :: cs => isFloatCore cs
    | '+' :: cs => isFloatCore cs
    | cs => isFloatCore cs
  if ok then some w else none

/-- `[float(i) for i in ws]`: all tokens must parse as floats. -/
def pyFloatList : List String → Option (List String)
  | [] => some []
  | w :: ws =>
    match pyFloatTok w with
    | none => none
    | some t =>
      match pyFloatList ws with
      | none => none
      | some ts => some (t :: ts)

/-- Python `re.match('[A-Za-z]', w)`: the token begins with an ASCII letter. -/
def startsAlpha (w : String) : Bool :=
  match w.toList with
  | [] => false
  | c :: _ => c.isAlpha

/-! ## The lookup tables (gmxio.py lines 17-87) -/

/-- VdW interaction function types (`nftypes`). -/
def nftypes : List (Option String) := [none, some "VDW", some "VDW_BHAM"]

/-- Pairwise interaction function types (`pftypes`). -/
def pftypes : List (Option String) := [none, some "VPAIR", some "VPAIR_BHAM"]

/-- Bonded interaction function types (`bftypes`). -/
def bftypes : List (Option String) := [none, some "BONDS", some "G96BONDS", some "MORSE"]

/-- Angle interaction function types (`aftypes`). -/
def aftypes : List (Option String) :=
  [none, some "ANGLES", some "G96ANGLES", some "CROSS_BOND_BOND",
   some "CROSS_BOND_ANGLE", some "UREY_BRADLEY", some "QANGLES"]

/-- Dihedral interaction function types (`dftypes`). -/
def dftypes : List (Option String) := [none, some "PDIHS", some "IDIHS", some "RBDIHS"]

/-- `fdict['virtual_sites2']`. -/
def vsite2types : List (Option String) := [some "NONE", some "VSITE2"]

/-- `fdict['virtual_sites3']`. -/
def vsite3types : List (Option String) :=
  [some "NONE", some "VSITE3", some "VSITE3FD", some "VSITE3FAD", some "VSITE3OUT"]

/-- `fdict['virtual_sites4']`. -/
def vsite4types : List (Option String) := [some "NONE", some "VSITE4FD"]

/-- Association-list lookup, embedding Python `d[k]` / `k in d` on the
string-keyed dictionaries of the source. -/
def alookup {β : Type} (k : String) : List (String × β) → Option β
  | [] => none
  | (k', v) :: rest => if k' = k then some v else alookup k rest

/-- Python `d[k] = v` on an association list: replace in place, else append. -/
def setEntry {β : Type} (d : List (String × β)) (k : String) (v : β) : List (String × β) :=
  match d with
  | [] => [(k, v)]
  | (k', v') :: rest => if k' = k then (k, v) :: rest else (k', v') :: setEntry rest k v

/-- `d.setdefault(k, []).append(v)`: append `v` to the list at key `k`,
creating the entry if absent (gmxio.py line 269). -/
def adictAppend (d : List (String × List String)) (k v : String) :
    List (String × List String) :=
  match d with
  | [] => [(k, [v])]
  | (k', l) :: rest =>
    if k' = k then (k', l ++ [v]) :: rest else (k', l) :: adictAppend rest k v

/-- The initial Interaction type -> Parameter dictionary `pdict`
(gmxio.py lines 58-87); field index -> parameter-name letter. -/
def pdict0 : List (String × List (Nat × String)) :=
  [("BONDS", [(3, "B"), (4, "K")]),
   ("G96BONDS", []),
   ("MORSE", [(3, "B"), (4, "C"), (5, "E")]),
   ("ANGLES", [(4, "B"), (5, "K")]),
   ("G96ANGLES", []),
   ("CROSS_BOND_BOND", [(4, "1"), (5, "2"), (6, "K")]),
   ("CROSS_BOND_ANGLE", [(4, "1"), (5, "2"), (6, "3"), (7, "K")]),
   ("QANGLES", [(4, "B"), (5, "K0"), (6, "K1"), (7, "K2"), (8, "K3"), (9, "K4")]),
   ("UREY_BRADLEY", [(4, "T"), (5, "K1"), (6, "B"), (7, "K2")]),
   ("PDIHS1", [(5, "B"), (6, "K")]),
   ("PDIHS2", [(5, "B"), (6, "K")]),
   ("PDIHS3", [(5, "B"), (6, "K")]),
   ("PDIHS4", [(5, "B"), (6, "K")]),
   ("PDIHS5", [(5, "B"), (6, "K")]),
   ("PDIHS6", [(5, "B"), (6, "K")]),
   ("IDIHS", [(5, "B"), (6, "K")]),
   ("VDW", [(4, "S"), (5, "T")]),
   ("VPAIR", [(3, "S"), (4, "T")]),
   ("COUL", [(6, "")]),
   ("RBDIHS", [(6, "K1"), (7, "K2"), (8, "K3"), (9, "K4"), (10, "K5")]),
   ("VDW_BHAM", [(4, "A"), (5, "B"), (6, "C")]),
   ("VPAIR_BHAM", [(3, "A"), (4, "B"), (5, "C")]),
   ("QTPIE", [(1, "C"), (2, "H"), (3, "A")]),
   ("VSITE2", [(4, "A")]),
   ("VSITE3", [(5, "A"), (6, "B")]),
   ("VSITE3FD", [(5, "A"), (6, "D")]),
   ("VSITE3FAD", [(5, "T"), (6, "D")]),
   ("VSITE3OUT", [(5, "A"), (6, "B"), (7, "C")]),
   ("VSITE4FD", [(6, "A"), (7, "B"), (8, "D")])]

/-! ## parse_atomtype_line (gmxio.py lines 89-145) -/

/-- The dictionary returned by `parse_atomtype_line`.  Float-valued fields
(`mass`, `chg`, `param`) keep their raw tokens; only parse success matters
to the classifier. -/
structure AtomTypeRecord where
  atomtype : String
  batomtype : String
  atomicnum : Int
  mass : String
  chg : String
  ptp : String
  param : List String
  bonus : Nat
deriving DecidableEq, Repr

/-- `parse_atomtype_line(line)`: strip the comment, split, `None` for
fewer than six fields, otherwise walk the elastic field positions.
`.error` is a raised `ValueError` from a failed `float(...)`. -/
def parse_atomtype_line (line : String) : Except String (Option AtomTypeRecord) :=
  let sline := pySplit (stripComment line)
  if sline.length < 6 then .ok none else
  let atomtype := sline.getD 0 ""
  let b1 : Bool := startsAlpha (sline.getD 1 "")
  let batomtype := if b1 then sline.getD 1 "" else atomtype
  let w1 : Nat := if b1 then 2 else 1
  let b2 : Bool := isint (sline.getD w1 "")
  let atomicnum : Int := if b2 then (pyInt (sline.getD w1 "")).getD 0 else -1
  let w2 : Nat := if b2 then w1 + 1 else w1
  let bonus : Nat := (if b1 then 1 else 0) + (if b2 then 1 else 0)
  match pyFloatTok (sline.getD w2 "") with
  | none => .error "ValueError"
  | some mass =>
    match pyFloatTok (sline.getD (w2 + 1) "") with
    | none => .error "ValueError"
    | some chg =>
      let ptp := sline.getD (w2 + 2) ""
      match pyFloatList (sline.drop (w2 + 3)) with
      | none => .error "ValueError"
      | some param =>
        .ok (some { atomtype, batomtype, atomicnum, mass, chg, ptp, param, bonus })

/-! ## The ITP_Reader state and feed (gmxio.py lines 147-311) -/

/-- The mutable attributes of one `ITP_Reader` together with the
module-global `pdict` it reads and writes. -/
structure ITPState where
  sec : Option String
  nbtype : Option Int
  res : Option String
  adict : List (String × List String)
  pdict : List (String × List (Nat × String))
  itype : Option String
  suffix : String
  ln : Nat
deriving DecidableEq, Repr

/-- State after `ITP_Reader.__init__` (plus the global `pdict`). -/
def initState : ITPState :=
  { sec := none, nbtype := none, res := none, adict := [], pdict := pdict0,
    itype := none, suffix := "", ln := 0 }

/-- The value `feed` returns to its caller: falling off the end of the
method (Python's implicit `None`), the explicit `return None, None` for
blank/comment lines, or the explicit `return [], "Confused"` for a data
line in an unrecognized section. -/
inductive FeedRet where
  | nothing
  | noneNone
  | confused
deriving DecidableEq, Repr

/-- The dynamically-typed `atom` variable of `feed`: a list of strings in
every branch except `atomtypes`, where the source assigns the bare atom
type string (line 260), so the canonicalization tail acts on characters. -/
inductive PyAtoms where
  | lst (l : List String)
  | str (s : String)
deriving DecidableEq, Repr

/-- Either an early `return` from `feed`, or fall-through to the
canonicalization tail (line 308) carrying the extracted atoms. -/
inductive ClassifyOut where
  | early (r : FeedRet) (st : ITPState)
  | through (st : ITPState) (atoms : PyAtoms)
deriving DecidableEq, Repr

/-- The list comprehension
`[self.adict[self.res][int(i) - 1] for i in idxs]` (lines 275/281/287):
dict lookup, `int` parse and (possibly negative) list index per element,
each raising on failure. -/
def lookupAtoms (adict : List (String × List String)) (res : Option String) :
    List String → Except String (List String)
  | [] => .ok []
  | i :: rest =>
    match res with
    | none => .error "KeyError"
    | some r =>
      match alookup r adict with
      | none => .error "KeyError"
      | some tbl =>
        match pyInt i with
        | none => .error "ValueError"
        | some k =>
          match pyIndex tbl (k - 1) with
          | none => .error "IndexError"
          | some a =>
            match lookupAtoms adict res rest with
            | .error e => .error e
            | .ok as => .ok (a :: as)

/-- The unconditional `feed` preamble (lines 240-241): clear `itype`,
advance the line counter. -/
def bump (st : ITPState) : ITPState :=
  { st with itype := none, ln := st.ln + 1 }

/-- The branch chain of `feed` (lines 238-307): updates state and either
returns early or hands the `atom` value to the canonicalization tail. -/
def classify (st : ITPState) (line : String) : Except String ClassifyOut :=
  let s := pySplit line
  let stb : ITPState := bump st
  if isSkippable line then .ok (.early .noneNone stb)
  else if isSectionHeader line then
    .ok (.through { stb with sec := some (sectionName line) } (.lst []))
  else if st.sec = some "defaults" then
    match pyInt (s.getD 0 "") with
    | none => .error "ValueError"
    | some v => .ok (.through { stb with nbtype := some v } (.lst []))
  else if st.sec = some "moleculetype" then
    .ok (.through { stb with res := some (s.getD 0 "") } (.lst []))
  else if st.sec = some "atomtypes" then
    match parse_atomtype_line line with
    | .error e => .error e
    | .ok none => .error "TypeError"
    | .ok (some atype) =>
      let pd1 := setEntry stb.pdict "VDW" [(4 + atype.bonus, "S"), (5 + atype.bonus, "T")]
      let pd2 := setEntry pd1 "VDW_BHAM"
        [(4 + atype.bonus, "A"), (5 + atype.bonus, "B"), (6 + atype.bonus, "C")]
      let newpd := if atype.bonus > 0 then pd2 else stb.pdict
      match st.nbtype with
      | none => .error "TypeError"
      | some nb =>
        match pyIndex nftypes nb with
        | none => .error "IndexError"
        | some entry =>
          .ok (.through { stb with pdict := newpd, itype := entry } (.str atype.atomtype))
  else if st.sec = some "nonbond_params" then
    match s.get? 1 with
    | none => .error "IndexError"
    | some a1 =>
      match st.nbtype with
      | none => .error "TypeError"
      | some nb =>
        match pyIndex pftypes nb with
        | none => .error "IndexError"
        | some entry => .ok (.through { stb with itype := entry } (.lst [s.getD 0 "", a1]))
  else if st.sec = some "atoms" then
    match s.get? 4 with
    | none => .error "IndexError"
    | some a4 =>
      match s.get? 3 with
      | none => .error "IndexError"
      | some a3 =>
        .ok (.through
          { stb with itype := some "COUL", adict := adictAppend stb.adict a3 a4 }
          (.lst [a4]))
  else if st.sec = some "qtpie" then
    .ok (.through { stb with itype := some "QTPIE" } (.lst [s.getD 0 ""]))
  else if st.sec = some "bonds" then
    match lookupAtoms st.adict st.res (s.take 2) with
    | .error e => .error e
    | .ok atoms =>
      match s.get? 2 with
      | none => .error "IndexError"
      | some w =>
        match pyInt w with
        | none => .error "ValueError"
        | some code =>
          match pyIndex bftypes code with
          | none => .error "IndexError"
          | some entry => .ok (.through { stb with itype := entry } (.lst atoms))
  else if st.sec = some "bondtypes" then
    match s.get? 1 with
    | none => .error "IndexError"
    | some a1 =>
      match s.get? 2 with
      | none => .error "IndexError"
      | some w =>
        match pyInt w with
        | none => .error "ValueError"
        | some code =>
          match pyIndex bftypes code with
          | none => .error "IndexError"
          | some entry => .ok (.through { stb with itype := entry } (.lst [s.getD 0 "", a1]))
  else if st.sec = some "angles" then
    match lookupAtoms st.adict st.res (s.take 3) with
    | .error e => .error e
    | .ok atoms =>
      match s.get? 3 with
      | none => .error "IndexError"
      | some w =>
        match pyInt w with
        | none => .error "ValueError"
        | some code =>
          match pyIndex aftypes code with
          | none => .error "IndexError"
          | some entry => .ok (.through { stb with itype := entry } (.lst atoms))
  else if st.sec = some "angletypes" then
    match s.get? 1, s.get? 2 with
    | some a1, some a2 =>
      (match s.get? 3 with
       | none => .error "IndexError"
       | some w =>
         match pyInt w with
         | none => .error "ValueError"
         | some code =>
           match pyIndex aftypes code with
           | none => .error "IndexError"
           | some entry =>
             .ok (.through { stb with itype := entry } (.lst [s.getD 0 "", a1, a2])))
    | _, _ => .error "IndexError"
  else if st.sec = some "dihedrals" then
    match lookupAtoms st.adict st.res (s.take 4) with
    | .error e => .error e
    | .ok atoms =>
      match s.get? 4 with
      | none => .error "IndexError"
      | some w =>
        match pyInt w with
        | none => .error "ValueError"
        | some code =>
          match pyIndex dftypes code with
          | none => .error "IndexError"
          | some entry =>
            if entry = some "PDIHS" ∧ 7 ≤ s.length then
              match s.get? 7 with
              | none => .error "IndexError"
              | some m => .ok (.through { stb with itype := some ("PDIHS" ++ m) } (.lst atoms))
            else .ok (.through { stb with itype := entry } (.lst atoms))
  else if st.sec = some "dihedraltypes" then
    match s.get? 1, s.get? 2, s.get? 3 with
    | some a1, some a2, some a3 =>
      (match s.get? 4 with
       | none => .error "IndexError"
       | some w =>
         match pyInt w with
         | none => .error "ValueError"
         | some code =>
           match pyIndex dftypes code with
           | none => .error "IndexError"
           | some entry =>
             if entry = some "PDIHS" ∧ 7 ≤ s.length then
               match s.get? 7 with
               | none => .error "IndexError"
               | some m =>
                 .ok (.through { stb with itype := some ("PDIHS" ++ m) }
                   (.lst [s.getD 0 "", a1, a2, a3]))
             else .ok (.through { stb with itype := entry } (.lst [s.getD 0 "", a1, a2, a3])))
    | _, _, _ => .error "IndexError"
  else if st.sec = some "virtual_sites2" then
    match s.get? 3 with
    | none => .error "IndexError"
    | some w =>
      match pyInt w with
      | none => .error "ValueError"
      | some code =>
        match pyIndex vsite2types code with
        | none => .error "IndexError"
        | some entry => .ok (.through { stb with itype := entry } (.lst [s.getD 0 ""]))
  else if st.sec = some "virtual_sites3" then
    match s.get? 4 with
    | none => .error "IndexError"
    | some w =>
      match pyInt w with
      | none => .error "ValueError"
      | some code =>
        match pyIndex vsite3types code with
        | none => .error "IndexError"
        | some entry => .ok (.through { stb with itype := entry } (.lst [s.getD 0 ""]))
  else if st.sec = some "virtual_sites4" then
    match s.get? 5 with
    | none => .error "IndexError"
    | some w =>
      match pyInt w with
      | none => .error "ValueError"
      | some code =>
        match pyIndex vsite4types code with
        | none => .error "IndexError"
        | some entry => .ok (.through { stb with itype := entry } (.lst [s.getD 0 ""]))
  else .ok (.early .confused stb)

/-- Python `<` on single characters: code-point comparison. -/
def pyCharLt (a b : Char) : Bool :=
  Nat.blt a.toNat b.toNat

/-- Python `<` on strings, over the character lists: lexicographic by code
point, a proper prefix sorting before its extensions. -/
def pyStrLtAux : List Char → List Char → Bool
  | [], [] => false
  | [], _ :: _ => true
  | _ :: _, [] => false
  | a :: as, b :: bs => if a = b then pyStrLtAux as bs else pyCharLt a b

/-- Python `s < t` (and, flipped, the `atom[0] > atom[-1]` test of
line 308). -/
def pyStrLt (s t : String) : Bool :=
  pyStrLtAux s.data t.data

/-- The canonical-ordering step for a list-valued `atom` (lines 308-310):
reverse when the first element sorts lexicographically after the last. -/
def canonList (l : List String) : List String :=
  if 1 < l.length ∧ pyStrLt (l.getLast?.getD "") (l.head?.getD "") = true then l.reverse
  else l

/-- The same step when `atom` is a bare string (the `atomtypes` branch):
`len`, `[0]`, `[-1]` and `[::-1]` act on characters. -/
def canonStr (s : String) : String :=
  if 1 < s.data.length ∧ pyCharLt (s.data.getLast?.getD ' ') (s.data.headD ' ') = true then
    String.mk s.data.reverse
  else s

/-- `''.join(atom)` after canonical ordering (line 311). -/
def pySuffix : PyAtoms → String
  | .lst l => String.join (canonList l)
  | .str s => canonStr s

/-- `ITP_Reader.feed(line)`: the branch chain followed by the
canonicalization tail; returns the Python return value and the post-state. -/
def feed (st : ITPState) (line : String) : Except String (FeedRet × ITPState) :=
  match classify st line with
  | .error e => .error e
  | .ok (.early r st') => .ok (r, st')
  | .ok (.through st' a) => .ok (.nothing, { st' with suffix := pySuffix a })

/-- Feed a list of lines in file order, discarding the return values. -/
def feedLines (st : ITPState) : List String → Except String ITPState
  | [] => .ok st
  | l :: ls =>
    match feed st l with
    | .error e => .error e
    | .ok (_, st') => feedLines st' ls

/-- The section names `feed` dispatches on (the keys of `fdict` plus the
state-only sections). -/
def recognizedSecs : List String :=
  ["defaults", "moleculetype", "atomtypes", "nonbond_params", "atoms", "qtpie",
   "bonds", "bondtypes", "angles", "angletypes", "dihedrals", "dihedraltypes",
   "virtual_sites2", "virtual_sites3", "virtual_sites4"]

/-! ## Helper lemmas about the dictionary and string operations -/

/-- The state carried by a `classify` outcome, whichever constructor. -/
def ClassifyOut.stateOf : ClassifyOut → ITPState
  | .early _ st => st
  | .through st _ => st

theorem alookup_setEntry_self {β : Type} (d : List (String × β)) (k : String) (v : β) :
    alookup k (setEntry d k v) = some v := by
  induction d with
  | nil => simp [setEntry, alookup]
  | cons p rest ih =>
    obtain ⟨k', v'⟩ := p
    by_cases h : k' = k <;> simp [setEntry, alookup, h, ih]

theorem alookup_setEntry_ne {β : Type} (d : List (String × β)) (k k' : String) (v : β)
    (h : k' ≠ k) : alookup k (setEntry d k' v) = alookup k d := by
  induction d with
  | nil => simp [setEntry, alookup, h]
  | cons p rest ih =>
    obtain ⟨k'', v''⟩ := p
    by_cases h2 : k'' = k' <;> by_cases h3 : k'' = k <;>
      simp_all [setEntry, alookup]

theorem setEntry_eq_self {β : Type} (d : List (String × β)) (k : String) (v : β)
    (h : alookup k d = some v) : setEntry d k v = d := by
  induction d with
  | nil => simp [alookup] at h
  | cons p rest ih =>
    obtain ⟨k', v'⟩ := p
    by_cases h2 : k' = k
    · subst h2
      simp [alookup] at h
      simp [setEntry, h]
    · simp only [alookup, if_neg h2] at h
      simp [setEntry, h2, ih h]

theorem adictAppend_alookup (d : List (String × List String)) (k v : String) :
    alookup k (adictAppend d k v) = some ((alookup k d).getD [] ++ [v]) := by
  induction d with
  | nil => simp [adictAppend, alookup]
  | cons p rest ih =>
    obtain ⟨k', l⟩ := p
    by_cases h : k' = k <;> simp [adictAppend, alookup, h, ih]

theorem str_empty_append (s : String) : "" ++ s = s := by
  cases s
  rfl

theorem join_singleton (s : String) : String.join [s] = s := by
  simp [String.join, List.foldl, str_empty_append]

theorem join_pair (s t : String) : String.join [s, t] = s ++ t := by
  simp [String.join, List.foldl, str_empty_append]


theorem classify_pdict_frame (st : ITPState) (line : String) (out : ClassifyOut)
    (h : classify st line = .ok out) (k : String) (h1 : k ≠ "VDW") (h2 : k ≠ "VDW_BHAM") :
    alookup k out.stateOf.pdict = alookup k st.pdict := by
  have hne1 : ("VDW" : String) ≠ k := fun hx => h1 hx.symm
  have hne2 : ("VDW_BHAM" : String) ≠ k := fun hx => h2 hx.symm
  by_cases hsk : isSkippable line = true
  · simp only [classify, hsk, if_true] at h
    cases h
    simp [ClassifyOut.stateOf, bump]
  · by_cases hhd : isSectionHeader line = true
    · simp only [classify, hsk, hhd, if_true, Bool.false_eq_true, if_false] at h
      cases h
      simp [ClassifyOut.stateOf, bump]
    · simp only [classify, hsk, hhd, Bool.false_eq_true, if_false] at h
      by_cases s1 : st.sec = some "defaults"
      · rw [if_pos s1] at h
        split at h <;> cases h
        simp [ClassifyOut.stateOf, bump]
      · rw [if_neg s1] at h
        by_cases s2 : st.sec = some "moleculetype"
        · rw [if_pos s2] at h
          cases h
          simp [ClassifyOut.stateOf, bump]
        · rw [if_neg s2] at h
          by_cases s3 : st.sec = some "atomtypes"
          · rw [if_pos s3] at h
            split at h <;> try cases h
            case _ atype heq =>
              split at h <;> try cases h
              case _ nb hnb =>
                split at h <;> cases h
                simp only [ClassifyOut.stateOf, bump]
                split
                · rw [alookup_setEntry_ne _ _ _ _ hne2, alookup_setEntry_ne _ _ _ _ hne1]
                · rfl
          · rw [if_neg s3] at h
            by_cases s4 : st.sec = some "nonbond_params"
            · rw [if_pos s4] at h
              split at h <;> try cases h
              split at h <;> try cases h
              split at h <;> cases h
              simp [ClassifyOut.stateOf, bump]
            · rw [if_neg s4] at h
              by_cases s5 : st.sec = some "atoms"
              · rw [if_pos s5] at h
                split at h <;> try cases h
                split at h <;> cases h
                simp [ClassifyOut.stateOf, bump]
              · rw [if_neg s5] at h
                by_cases s6 : st.sec = some "qtpie"
                · rw [if_pos s6] at h
                  cases h
                  simp [ClassifyOut.stateOf, bump]
                · rw [if_neg s6] at h
                  by_cases s7 : st.sec = some "bonds"
                  · rw [if_pos s7] at h
                    repeat' split at h
                    all_goals cases h
                    all_goals simp [ClassifyOut.stateOf, bump]
                  · rw [if_neg s7] at h
                    by_cases s8 : st.sec = some "bondtypes"
                    · rw [if_pos s8] at h
                      repeat' split at h
                      all_goals cases h
                      all_goals simp [ClassifyOut.stateOf, bump]
                    · rw [if_neg s8] at h
                      by_cases s9 : st.sec = some "angles"
                      · rw [if_pos s9] at h
                        repeat' split at h
                        all_goals cases h
                        all_goals simp [ClassifyOut.stateOf, bump]
                      · rw [if_neg s9] at h
                        by_cases s10 : st.sec = some "angletypes"
                        · rw [if_pos s10] at h
                          repeat' split at h
                          all_goals cases h
                          all_goals simp [ClassifyOut.stateOf, bump]
                        · rw [if_neg s10] at h
                          by_cases s11 : st.sec = some "dihedrals"
                          · rw [if_pos s11] at h
                            repeat' split at h
                            all_goals cases h
                            all_goals simp [ClassifyOut.stateOf, bump]
                          · rw [if_neg s11] at h
                            by_cases s12 : st.sec = some "dihedraltypes"
                            · rw [if_pos s12] at h
                              repeat' split at h
                              all_goals cases h
                              all_goals simp [ClassifyOut.stateOf, bump]
                            · rw [if_neg s12] at h
                              by_cases s13 : st.sec = some "virtual_sites2"
                              · rw [if_pos s13] at h
                                repeat' split at h
                                all_goals cases h
                                all_goals simp [ClassifyOut.stateOf, bump]
                              · rw [if_neg s13] at h
                                by_cases s14 : st.sec = some "virtual_sites3"
                                · rw [if_pos s14] at h
                                  repeat' split at h
                                  all_goals cases h
                                  all_goals simp [ClassifyOut.stateOf, bump]
                                · rw [if_neg s14] at h
                                  by_cases s15 : st.sec = some "virtual_sites4"
                                  · rw [if_pos s15] at h
                                    repeat' split at h
                                    all_goals cases h
                                    all_goals simp [ClassifyOut.stateOf, bump]
                                  · rw [if_neg s15] at h
                                    cases h
                                    simp [ClassifyOut.stateOf, bump]

theorem classify_early_cases (st : ITPState) (line : String) (r : FeedRet) (st' : ITPState)
    (h : classify st line = .ok (.early r st')) :
    (r = .noneNone ∧ isSkippable line = true) ∨
    (r = .confused ∧ ∀ c ∈ recognizedSecs, st.sec ≠ some c) := by
  by_cases hsk : isSkippable line = true
  · simp only [classify, hsk, if_true] at h
    cases h
    exact Or.inl ⟨rfl, hsk⟩
  · by_cases hhd : isSectionHeader line = true
    · simp only [classify, hsk, hhd, if_true, Bool.false_eq_true, if_false] at h
      cases h
    · simp only [classify, hsk, hhd, Bool.false_eq_true, if_false] at h
      by_cases s1 : st.sec = some "defaults"
      · rw [if_pos s1] at h
        split at h <;> cases h
      · rw [if_neg s1] at h
        by_cases s2 : st.sec = some "moleculetype"
        · rw [if_pos s2] at h
          cases h
        · rw [if_neg s2] at h
          by_cases s3 : st.sec = some "atomtypes"
          · rw [if_pos s3] at h
            repeat' split at h
            all_goals cases h
          · rw [if_neg s3] at h
            by_cases s4 : st.sec = some "nonbond_params"
            · rw [if_pos s4] at h
              repeat' split at h
              all_goals cases h
            · rw [if_neg s4] at h
              by_cases s5 : st.sec = some "atoms"
              · rw [if_pos s5] at h
                repeat' split at h
                all_goals cases h
              · rw [if_neg s5] at h
                by_cases s6 : st.sec = some "qtpie"
                · rw [if_pos s6] at h
                  cases h
                · rw [if_neg s6] at h
                  by_cases s7 : st.sec = some "bonds"
                  · rw [if_pos s7] at h
                    repeat' split at h
                    all_goals cases h
                  · rw [if_neg s7] at h
                    by_cases s8 : st.sec = some "bondtypes"
                    · rw [if_pos s8] at h
                      repeat' split at h
                      all_goals cases h
                    · rw [if_neg s8] at h
                      by_cases s9 : st.sec = some "angles"
                      · rw [if_pos s9] at h
                        repeat' split at h
                        all_goals cases h
                      · rw [if_neg s9] at h
                        by_cases s10 : st.sec = some "angletypes"
                        · rw [if_pos s10] at h
                          repeat' split at h
                          all_goals cases h
                        · rw [if_neg s10] at h
                          by_cases s11 : st.sec = some "dihedrals"
                          · rw [if_pos s11] at h
                            repeat' split at h
                            all_goals cases h
                          · rw [if_neg s11] at h
                            by_cases s12 : st.sec = some "dihedraltypes"
                            · rw [if_pos s12] at h
                              repeat' split at h
                              all_goals cases h
                            · rw [if_neg s12] at h
                              by_cases s13 : st.sec = some "virtual_sites2"
                              · rw [if_pos s13] at h
                                repeat' split at h
                                all_goals cases h
                              · rw [if_neg s13] at h
                                by_cases s14 : st.sec = some "virtual_sites3"
                                · rw [if_pos s14] at h
                                  repeat' split at h
                                  all_goals cases h
                                · rw [if_neg s14] at h
                                  by_cases s15 : st.sec = some "virtual_sites4"
                                  · rw [if_pos s15] at h
                                    repeat' split at h
                                    all_goals cases h
                                  · rw [if_neg s15] at h
                                    cases h
                                    refine Or.inr ⟨rfl, ?_⟩
                                    intro c hc
                                    fin_cases hc <;> assumption

/-! ## Per-section equations for `classify` under the branch conditions -/

theorem classify_atoms_eq (st : ITPState) (line : String)
    (hsk : isSkippable line = false) (hhd : isSectionHeader line = false)
    (hsec : st.sec = some "atoms") :
    classify st line =
      match (pySplit line).get? 4 with
      | none => .error "IndexError"
      | some a4 =>
        match (pySplit line).get? 3 with
        | none => .error "IndexError"
        | some a3 =>
          .ok (.through
            { bump st with itype := some "COUL", adict := adictAppend (bump st).adict a3 a4 }
            (.lst [a4])) := by
  have hsk' : ¬ (isSkippable line = true) := by simp [hsk]
  have hhd' : ¬ (isSectionHeader line = true) := by simp [hhd]
  have n1 : ¬ (st.sec = some "defaults") := by rw [hsec]; simp
  have n2 : ¬ (st.sec = some "moleculetype") := by rw [hsec]; simp
  have n3 : ¬ (st.sec = some "atomtypes") := by rw [hsec]; simp
  have n4 : ¬ (st.sec = some "nonbond_params") := by rw [hsec]; simp
  simp only [classify]
  rw [if_neg hsk', if_neg hhd', if_neg n1, if_neg n2, if_neg n3, if_neg n4, if_pos hsec]

theorem classify_atomtypes_eq (st : ITPState) (line : String)
    (hsk : isSkippable line = false) (hhd : isSectionHeader line = false)
    (hsec : st.sec = some "atomtypes") :
    classify st line =
      match parse_atomtype_line line with
      | .error e => .error e
      | .ok none => .error "TypeError"
      | .ok (some atype) =>
        match st.nbtype with
        | none => .error "TypeError"
        | some nb =>
          match pyIndex nftypes nb with
          | none => .error "IndexError"
          | some entry =>
            .ok (.through
              { bump st with
                pdict :=
                  if atype.bonus > 0 then
                    setEntry
                      (setEntry (bump st).pdict "VDW"
                        [(4 + atype.bonus, "S"), (5 + atype.bonus, "T")])
                      "VDW_BHAM"
                      [(4 + atype.bonus, "A"), (5 + atype.bonus, "B"), (6 + atype.bonus, "C")]
                  else (bump st).pdict,
                itype := entry }
              (.str atype.atomtype)) := by
  have hsk' : ¬ (isSkippable line = true) := by simp [hsk]
  have hhd' : ¬ (isSectionHeader line = true) := by simp [hhd]
  have n1 : ¬ (st.sec = some "defaults") := by rw [hsec]; simp
  have n2 : ¬ (st.sec = some "moleculetype") := by rw [hsec]; simp
  simp only [classify]
  rw [if_neg hsk', if_neg hhd', if_neg n1, if_neg n2, if_pos hsec]

theorem classify_bonds_eq (st : ITPState) (line : String)
    (hsk : isSkippable line = false) (hhd : isSectionHeader line = false)
    (hsec : st.sec = some "bonds") :
    classify st line =
      match lookupAtoms st.adict st.res ((pySplit line).take 2) with
      | .error e => .error e
      | .ok atoms =>
        match (pySplit line).get? 2 with
        | none => .error "IndexError"
        | some w =>
          match pyInt w with
          | none => .error "ValueError"
          | some code =>
            match pyIndex bftypes code with
            | none => .error "IndexError"
            | some entry => .ok (.through { bump st with itype := entry } (.lst atoms)) := by
  have hsk' : ¬ (isSkippable line = true) := by simp [hsk]
  have hhd' : ¬ (isSectionHeader line = true) := by simp [hhd]
  have n1 : ¬ (st.sec = some "defaults") := by rw [hsec]; simp
  have n2 : ¬ (st.sec = some "moleculetype") := by rw [hsec]; simp
  have n3 : ¬ (st.sec = some "atomtypes") := by rw [hsec]; simp
  have n4 : ¬ (st.sec = some "nonbond_params") := by rw [hsec]; simp
  have n5 : ¬ (st.sec = some "atoms") := by rw [hsec]; simp
  have n6 : ¬ (st.sec = some "qtpie") := by rw [hsec]; simp
  simp only [classify]
  rw [if_neg hsk', if_neg hhd', if_neg n1, if_neg n2, if_neg n3, if_neg n4, if_neg n5,
    if_neg n6, if_pos hsec]

theorem classify_dihedraltypes_eq (st : ITPState) (line : String)
    (hsk : isSkippable line = false) (hhd : isSectionHeader line = false)
    (hsec : st.sec = some "dihedraltypes") :
    classify st line =
      match (pySplit line).get? 1, (pySplit line).get? 2, (pySplit line).get? 3 with
      | some a1, some a2, some a3 =>
        (match (pySplit line).get? 4 with
         | none => .error "IndexError"
         | some w =>
           match pyInt w with
           | none => .error "ValueError"
           | some code =>
             match pyIndex dftypes code with
             | none => .error "IndexError"
             | some entry =>
               if entry = some "PDIHS" ∧ 7 ≤ (pySplit line).length then
                 match (pySplit line).get? 7 with
                 | none => .error "IndexError"
                 | some m =>
                   .ok (.through { bump st with itype := some ("PDIHS" ++ m) }
                     (.lst [(pySplit line).getD 0 "", a1, a2, a3]))
               else
                 .ok (.through { bump st with itype := entry }
                   (.lst [(pySplit line).getD 0 "", a1, a2, a3])))
      | _, _, _ => .error "IndexError" := by
  have hsk' : ¬ (isSkippable line = true) := by simp [hsk]
  have hhd' : ¬ (isSectionHeader line = true) := by simp [hhd]
  have n1 : ¬ (st.sec = some "defaults") := by rw [hsec]; simp
  have n2 : ¬ (st.sec = some "moleculetype") := by rw [hsec]; simp
  have n3 : ¬ (st.sec = some "atomtypes") := by rw [hsec]; simp
  have n4 : ¬ (st.sec = some "nonbond_params") := by rw [hsec]; simp
  have n5 : ¬ (st.sec = some "atoms") := by rw [hsec]; simp
  have n6 : ¬ (st.sec = some "qtpie") := by rw [hsec]; simp
  have n7 : ¬ (st.sec = some "bonds") := by rw [hsec]; simp
  have n8 : ¬ (st.sec = some "bondtypes") := by rw [hsec]; simp
  have n9 : ¬ (st.sec = some "angles") := by rw [hsec]; simp
  have n10 : ¬ (st.sec = some "angletypes") := by rw [hsec]; simp
  have n11 : ¬ (st.sec = some "dihedrals") := by rw [hsec]; simp
  simp only [classify]
  rw [if_neg hsk', if_neg hhd', if_neg n1, if_neg n2, if_neg n3, if_neg n4, if_neg n5,
    if_neg n6, if_neg n7, if_neg n8, if_neg n9, if_neg n10, if_neg n11, if_pos hsec]

theorem beforeSemi_idem (cs : List Char) : beforeSemi (beforeSemi cs) = beforeSemi cs := by
  induction cs with
  | nil => rfl
  | cons c cs ih =>
    by_cases h : c = ';'
    · simp [beforeSemi, h]
    · simp [beforeSemi, h, ih]

theorem stripComment_idem (line : String) :
    stripComment (stripComment line) = stripComment line := by
  simp [stripComment, beforeSemi_idem]

theorem pyCharLt_asymm {a b : Char} (h : pyCharLt a b = true) : pyCharLt b a = false := by
  have hl : a.toNat < b.toNat := by simpa [pyCharLt, Nat.blt_eq] using h
  simp only [pyCharLt]
  rw [← Bool.not_eq_true, Nat.blt_eq]
  omega

theorem pyCharLt_total {a b : Char} (h1 : pyCharLt a b = false) (h2 : pyCharLt b a = false) :
    a = b := by
  have g1 : ¬ a.toNat < b.toNat := by
    rw [← Nat.blt_eq]
    simp only [pyCharLt] at h1
    simp [h1]
  have g2 : ¬ b.toNat < a.toNat := by
    rw [← Nat.blt_eq]
    simp only [pyCharLt] at h2
    simp [h2]
  have g3 : a.toNat = b.toNat := by omega
  exact Char.ext (UInt32.ext g3)

theorem pyStrLtAux_asymm : ∀ (as bs : List Char),
    pyStrLtAux as bs = true → pyStrLtAux bs as = false
  | [], [] => by simp [pyStrLtAux]
  | [], _ :: _ => by simp [pyStrLtAux]
  | _ :: _, [] => by simp [pyStrLtAux]
  | a :: as, b :: bs => by
    by_cases hab : a = b
    · subst hab
      simp only [pyStrLtAux, if_pos rfl]
      exact pyStrLtAux_asymm as bs
    · have hba : ¬ b = a := fun h => hab h.symm
      simp only [pyStrLtAux, if_neg hab, if_neg hba]
      exact pyCharLt_asymm

theorem pyStrLtAux_total : ∀ (as bs : List Char),
    pyStrLtAux as bs = false → pyStrLtAux bs as = false → as = bs
  | [], [] => by simp
  | [], _ :: _ => by simp [pyStrLtAux]
  | _ :: _, [] => by simp [pyStrLtAux]
  | a :: as, b :: bs => by
    by_cases hab : a = b
    · subst hab
      simp only [pyStrLtAux, if_pos rfl]
      intro h1 h2
      rw [pyStrLtAux_total as bs h1 h2]
    · have hba : ¬ b = a := fun h => hab h.symm
      simp only [pyStrLtAux, if_neg hab, if_neg hba]
      intro h1 h2
      exact (hab (pyCharLt_total h1 h2)).elim

theorem pyStrLt_asymm {s t : String} (h : pyStrLt s t = true) : pyStrLt t s = false :=
  pyStrLtAux_asymm _ _ h

theorem pyStrLt_total {s t : String} (h1 : pyStrLt s t = false) (h2 : pyStrLt t s = false) :
    s = t := by
  cases s
  cases t
  exact congrArg String.mk (pyStrLtAux_total _ _ h1 h2)

/-! ## Claims -/

def c1st : ITPState := { initState with sec := some "atoms" }

def c1post : ITPState :=
  { sec := some "atoms", nbtype := none, res := none, adict := [("SOL", ["OW"])],
    pdict := pdict0, itype := some "COUL", suffix := "OW", ln := 1 }

/-- Claim C1, counterexample: Fed the `atoms`-section data line
`"1 OW 1 SOL OW 1 -0.834 16.0"`, `feed` does not return the claimed
(interaction type, atom tuple) pair: it falls off the end of the method and
returns nothing (`FeedRet.nothing`); the resolved interaction type and
canonical suffix are only stored in the `itype`/`suffix` attributes. -/
theorem C1_counterexample :
    feed c1st "1 OW 1 SOL OW 1 -0.834 16.0" = .ok (.nothing, c1post) ∧
    c1post.itype = some "COUL" ∧ c1post.suffix = "OW" := ⟨rfl, rfl, rfl⟩

/-- Claim C1, amended: For every non-blank, non-comment, non-header line fed
while the current section is one of the recognized data sections, a
successful `feed` stores the resolved interaction type and canonical atom
suffix in the reader's `itype` and `suffix` attributes but its return value
is nothing (Python `None`), not the (interaction type, atoms) pair. -/
theorem C1_amended (st : ITPState) (line : String) (c : String)
    (hsec : st.sec = some c) (hrec : c ∈ recognizedSecs)
    (hsk : isSkippable line = false) :
    ∀ out, feed st line = .ok out → out.1 = FeedRet.nothing := by
  intro out h
  unfold feed at h
  cases hcl : classify st line with
  | error e => rw [hcl] at h; cases h
  | ok o =>
    rw [hcl] at h
    cases o with
    | early r st2 =>
      rcases classify_early_cases st line r st2 hcl with ⟨_, hc⟩ | ⟨_, hall⟩
      · rw [hsk] at hc; cases hc
      · exact absurd hsec (hall c hrec)
    | through st2 a =>
      cases h
      rfl

def c1wit : ITPState := { initState with sec := some "qtpie" }

def c1wpost : ITPState := { c1wit with itype := some "QTPIE", ln := 1, suffix := "7" }

/-- Claim C1, witness for the amended theorem: a concrete `qtpie` line. -/
theorem C1_witness : (FeedRet.nothing, c1wpost).1 = FeedRet.nothing :=
  C1_amended c1wit "7 0.5 0.3 0.2" "qtpie" rfl (by decide) rfl
    (FeedRet.nothing, c1wpost) rfl

def c2st : ITPState := { initState with sec := some "dihedraltypes" }

/-- Claim C2, code bug: A `dihedraltypes` line with exactly 7 whitespace-delimited
fields and proper-dihedral function code 1 does not yield the unsuffixed
`PDIHS` type: the guard `len(s) >= 7` admits the line, and reading the
multiplicity at field index 7 raises `IndexError`. -/
theorem C2_theorem : feed c2st "A B C D 1 0.0 3.5" = .error "IndexError" := rfl

def c3st : ITPState := { initState with sec := some "atoms", res := some "WAT" }

def c3post : ITPState :=
  { c3st with itype := some "COUL", ln := 1, adict := [("SOL", ["OW"])], suffix := "OW" }

/-- Claim C3, counterexample: With current residue `WAT` (as set by a
`moleculetype` line), an `atoms` line whose residue-name field 3 reads
`SOL` registers the atom name under key `SOL`, not under the current
residue `WAT`: the `WAT` table stays absent. -/
theorem C3_counterexample :
    feed c3st "1 OW 1 SOL OW 1 -0.834 16.0" = .ok (.nothing, c3post) ∧
    alookup "WAT" c3post.adict = none ∧ alookup "SOL" c3post.adict = some ["OW"] :=
  ⟨rfl, rfl, rfl⟩

/-- Claim C3, amended: An `atoms` data line appends the atom name at field 4
to the index table keyed by the residue name at field 3 of the line itself
(coinciding with the moleculetype residue only when the two names agree);
the appended name lands at the end, so its 1-based index is the table's new
length; the computed atom tuple is the single name (stored as the suffix),
the stored interaction type is the Coulomb tag, and `feed` returns
nothing. -/
theorem C3_amended (st : ITPState) (line : String) (r3 a4 : String)
    (hsec : st.sec = some "atoms")
    (hsk : isSkippable line = false) (hhd : isSectionHeader line = false)
    (h3 : (pySplit line).get? 3 = some r3) (h4 : (pySplit line).get? 4 = some a4) :
    feed st line =
      .ok (.nothing,
        { st with itype := some "COUL", ln := st.ln + 1,
                  adict := adictAppend st.adict r3 a4, suffix := a4 }) ∧
    alookup r3 (adictAppend st.adict r3 a4) =
      some ((alookup r3 st.adict).getD [] ++ [a4]) := by
  refine ⟨?_, adictAppend_alookup _ _ _⟩
  unfold feed
  rw [classify_atoms_eq st line hsk hhd hsec, h4, h3]
  rfl

def c3wst : ITPState := { initState with sec := some "atoms", adict := [("SOL", ["OW"])] }

/-- Claim C3, witness for the amended theorem on a concrete second atom. -/
theorem C3_witness :
    feed c3wst "2 HW1 1 SOL HW1 1 0.4 1.0" =
      .ok (.nothing,
        { c3wst with itype := some "COUL", ln := c3wst.ln + 1,
                     adict := adictAppend c3wst.adict "SOL" "HW1", suffix := "HW1" }) ∧
    alookup "SOL" (adictAppend c3wst.adict "SOL" "HW1") =
      some ((alookup "SOL" c3wst.adict).getD [] ++ ["HW1"]) :=
  C3_amended c3wst "2 HW1 1 SOL HW1 1 0.4 1.0" "SOL" "HW1" rfl rfl rfl rfl rfl

def c4st : ITPState := { initState with sec := some "dihedraltypes" }

def c4post : ITPState := { c4st with itype := some "PDIHS;", ln := 1, suffix := "ABCD" }

/-- Claim C4, counterexample: `feed` does not strip the inline comment: on a
`dihedraltypes` line the tokens after the semicolon count as fields, so
`"A B C D 1 180.0 4.6 ; PARM 5 6"` resolves the multiplicity at raw field
index 7 to the comment marker itself (interaction type `"PDIHS;"`), while
the comment-stripped line raises `IndexError` instead — the comment did
affect classification. -/
theorem C4_counterexample :
    feed c4st "A B C D 1 180.0 4.6 ; PARM 5 6" = .ok (.nothing, c4post) ∧
    c4post.itype = some "PDIHS;" ∧
    feed c4st "A B C D 1 180.0 4.6" = .error "IndexError" :=
  ⟨rfl, rfl, rfl⟩

/-- Claim C4, amended: Comment stripping before field splitting happens only
in `parse_atomtype_line` (the atom-type record parser, whose result depends
only on the text before the first semicolon); `feed` itself splits the raw
line, so tokens at and after a semicolon do count as fields — in particular
the token at raw field index 7 of a proper-dihedral line, whatever it is,
becomes the multiplicity suffix. -/
theorem C4_amended :
    (∀ line : String, parse_atomtype_line line = parse_atomtype_line (stripComment line)) ∧
    (∀ (st : ITPState) (line a0 a1 a2 a3 a5 a6 m : String),
      st.sec = some "dihedraltypes" → isSkippable line = false →
      isSectionHeader line = false →
      pySplit line = [a0, a1, a2, a3, "1", a5, a6, m] →
      feed st line =
        .ok (.nothing,
          { st with itype := some ("PDIHS" ++ m), ln := st.ln + 1,
                    suffix := pySuffix (.lst [a0, a1, a2, a3]) })) := by
  constructor
  · intro line
    unfold parse_atomtype_line
    rw [stripComment_idem]
  · intro st line a0 a1 a2 a3 a5 a6 m hsec hsk hhd hs
    unfold feed
    rw [classify_dihedraltypes_eq st line hsk hhd hsec, hs]
    rfl

def c4wst : ITPState := { initState with sec := some "dihedraltypes" }

/-- Claim C4, witness for the amended theorem: the post-semicolon token `";x"`
at raw field index 7 becomes the multiplicity suffix. -/
theorem C4_witness :
    feed c4wst "A B C D 1 99.0 88.0 ;x" =
      .ok (.nothing,
        { c4wst with itype := some ("PDIHS" ++ ";x"), ln := c4wst.ln + 1,
                     suffix := pySuffix (.lst ["A", "B", "C", "D"]) }) :=
  C4_amended.2 c4wst "A B C D 1 99.0 88.0 ;x" "A" "B" "C" "D" "99.0" "88.0" ";x"
    rfl rfl rfl rfl

def c5st : ITPState := { initState with sec := some "dihedraltypes", nbtype := some 1 }

def c5postF : ITPState := { c5st with itype := some "IDIHS", ln := 1, suffix := "AXBXCXAX" }

def c5postR : ITPState := { c5st with itype := some "IDIHS", ln := 1, suffix := "AXCXBXAX" }

/-- Claim C5, counterexample: Feeding the same dihedral with its atom order
reversed does not always give the same canonical suffix: for the 4-atom
tuple `AX BX CX AX` (equal endpoints, asymmetric interior) the reversal
guard `atom[0] > atom[-1]` never fires, so the forward order gives suffix
`AXBXCXAX` and the reversed order `AXCXBXAX`. -/
theorem C5_counterexample :
    feed c5st "AX BX CX AX 2" = .ok (.nothing, c5postF) ∧
    feed c5st "AX CX BX AX 2" = .ok (.nothing, c5postR) ∧
    c5postF.suffix ≠ c5postR.suffix :=
  ⟨rfl, rfl, by decide⟩

/-- Claim C5, amended: The canonicalization step reverses a multi-element
tuple exactly when the first element sorts lexicographically after the
last, and feeding the reversed atom order yields the identical canonical
suffix whenever the tuple's first and last identifiers differ; with equal
endpoints both orders are kept verbatim, which differs for an asymmetric
interior. -/
theorem C5_amended (l : List String) (h2 : 2 ≤ l.length) :
    (canonList l =
      if pyStrLt (l.getLast?.getD "") (l.head?.getD "") = true then l.reverse else l) ∧
    (l.head?.getD "" ≠ l.getLast?.getD "" →
      String.join (canonList l.reverse) = String.join (canonList l)) := by
  have h1 : 1 < l.length := h2
  have h1r : 1 < l.reverse.length := by simpa using h1
  have hh : l.reverse.head? = l.getLast? := List.head?_reverse l
  have hl : l.reverse.getLast? = l.head? := List.getLast?_reverse l
  constructor
  · unfold canonList
    by_cases hc : pyStrLt (l.getLast?.getD "") (l.head?.getD "") = true
    · rw [if_pos ⟨h1, hc⟩, if_pos hc]
    · rw [if_neg (fun hx => hc hx.2), if_neg hc]
  · intro hne
    by_cases hda : pyStrLt (l.getLast?.getD "") (l.head?.getD "") = true
    · have had : pyStrLt (l.head?.getD "") (l.getLast?.getD "") = false := pyStrLt_asymm hda
      have e1 : canonList l = l.reverse := by
        unfold canonList
        rw [if_pos ⟨h1, hda⟩]
      have e2 : canonList l.reverse = l.reverse := by
        unfold canonList
        rw [hh, hl]
        rw [if_neg (fun hx => by rw [had] at hx; exact Bool.noConfusion hx.2)]
      rw [e1, e2]
    · by_cases had : pyStrLt (l.head?.getD "") (l.getLast?.getD "") = true
      · have e1 : canonList l = l := by
          unfold canonList
          rw [if_neg (fun hx => hda hx.2)]
        have e2 : canonList l.reverse = l.reverse.reverse := by
          unfold canonList
          rw [hh, hl]
          rw [if_pos ⟨h1r, had⟩]
        rw [e1, e2, List.reverse_reverse]
      · have hda' : pyStrLt (l.getLast?.getD "") (l.head?.getD "") = false := by
          simpa using hda
        have had' : pyStrLt (l.head?.getD "") (l.getLast?.getD "") = false := by
          simpa using had
        exact absurd (pyStrLt_total had' hda') hne

/-- Claim C5, witness for the amended theorem at the pair `["B", "A"]`. -/
theorem C5_witness :
    (canonList ["B", "A"] =
      if pyStrLt ((["B", "A"] : List String).getLast?.getD "")
          ((["B", "A"] : List String).head?.getD "") = true
      then (["B", "A"] : List String).reverse else ["B", "A"]) ∧
    ((["B", "A"] : List String).head?.getD "" ≠ (["B", "A"] : List String).getLast?.getD "" →
      String.join (canonList (["B", "A"] : List String).reverse) =
        String.join (canonList ["B", "A"])) :=
  C5_amended ["B", "A"] (by decide)

def c9st : ITPState := { initState with sec := some "dihedraltypes" }

def c9post : ITPState := { c9st with itype := some "PDIHS7", ln := 1, suffix := "ABCD" }

/-- Claim C9, counterexample: Multiplicity digit `7` produces interaction
type `PDIHS7`, but the parameter dictionary has no entry for it (and no
unsuffixed `PDIHS` base entry to strip back to): resolution fails rather
than mapping field 5 to the equilibrium value. -/
theorem C9_counterexample :
    feed c9st "A B C D 1 10.0 3.5 7" = .ok (.nothing, c9post) ∧
    c9post.itype = some "PDIHS7" ∧
    alookup "PDIHS7" c9post.pdict = none ∧ alookup "PDIHS" c9post.pdict = none :=
  ⟨rfl, rfl, rfl, rfl⟩

/-- Claim C9, amended: The parameter dictionary resolves proper-dihedral
parameter names through a fixed enumeration of the six suffixed types
`PDIHS1` … `PDIHS6`, each mapping field 5 to `B` and field 6 to `K`; there
is no digit-stripping fallback, so neither the bare `PDIHS` nor any other
suffixed variant (`PDIHS0`, `PDIHS7`, …) has an entry. -/
theorem C9_amended :
    alookup "PDIHS1" pdict0 = some [(5, "B"), (6, "K")] ∧
    alookup "PDIHS2" pdict0 = some [(5, "B"), (6, "K")] ∧
    alookup "PDIHS3" pdict0 = some [(5, "B"), (6, "K")] ∧
    alookup "PDIHS4" pdict0 = some [(5, "B"), (6, "K")] ∧
    alookup "PDIHS5" pdict0 = some [(5, "B"), (6, "K")] ∧
    alookup "PDIHS6" pdict0 = some [(5, "B"), (6, "K")] ∧
    alookup "PDIHS" pdict0 = none ∧ alookup "PDIHS7" pdict0 = none ∧
    alookup "PDIHS0" pdict0 = none :=
  ⟨rfl, rfl, rfl, rfl, rfl, rfl, rfl, rfl, rfl⟩

theorem lookupAtoms_cons (adict : List (String × List String)) (r : String)
    (tbl : List String) (i : String) (rest : List String)
    (htbl : alookup r adict = some tbl) :
    lookupAtoms adict (some r) (i :: rest) =
      (match pyInt i with
       | none => .error "ValueError"
       | some k =>
         match pyIndex tbl (k - 1) with
         | none => .error "IndexError"
         | some a =>
           match lookupAtoms adict (some r) rest with
           | .error e => .error e
           | .ok as => .ok (a :: as)) := by
  conv_lhs => unfold lookupAtoms
  dsimp only
  rw [htbl]

theorem lookupAtoms_no_table (adict : List (String × List String)) (r i : String)
    (rest : List String) (h : alookup r adict = none) :
    lookupAtoms adict (some r) (i :: rest) = .error "KeyError" := by
  conv_lhs => unfold lookupAtoms
  dsimp only
  rw [h]

/-- Claim C6, confirmed: Feeding a `bonds` line referencing a 1-based atom index
strictly greater than the number of atoms registered for the current
residue raises `IndexError`, and feeding any `bonds` data line with the
current residue unset raises `KeyError` — the two faces of the
"index lookup failure" hard error. -/
theorem C6_theorem (st : ITPState) (line : String)
    (hsec : st.sec = some "bonds")
    (hsk : isSkippable line = false) (hhd : isSectionHeader line = false) :
    (st.res = none → pySplit line ≠ [] → feed st line = .error "KeyError") ∧
    (∀ (r : String) (tbl : List String) (w : String) (k : Int),
      st.res = some r → alookup r st.adict = some tbl →
      (pySplit line).get? 0 = some w → pyInt w = some k → (tbl.length : Int) < k →
      feed st line = .error "IndexError") := by
  constructor
  · intro hres hne
    unfold feed
    rw [classify_bonds_eq st line hsk hhd hsec, hres]
    obtain ⟨w, rest, hs⟩ : ∃ w rest, pySplit line = w :: rest := by
      cases hsp : pySplit line with
      | nil => exact absurd hsp hne
      | cons w rest => exact ⟨w, rest, rfl⟩
    rw [hs]
    have hla : lookupAtoms st.adict none ((w :: rest).take 2) = .error "KeyError" := rfl
    rw [hla]
  · intro r tbl w k hres htbl h0 hk hlt
    unfold feed
    rw [classify_bonds_eq st line hsk hhd hsec, hres]
    obtain ⟨rest, hs⟩ : ∃ rest, pySplit line = w :: rest := by
      cases hsp : pySplit line with
      | nil => rw [hsp] at h0; cases h0
      | cons w' rest =>
        rw [hsp] at h0
        simp only [List.get?] at h0
        cases h0
        exact ⟨rest, rfl⟩
    have hpi : pyIndex tbl (k - 1) = none := by
      unfold pyIndex
      rw [if_pos (by omega)]
      refine List.get?_eq_none.mpr ?_
      omega
    have hla : lookupAtoms st.adict (some r) ((pySplit line).take 2) = .error "IndexError" := by
      rw [hs, List.take_succ_cons, lookupAtoms_cons st.adict r tbl w _ htbl, hk]
      dsimp only
      rw [hpi]
    rw [hla]

def c6st : ITPState :=
  { initState with sec := some "bonds", res := some "WAT", adict := [("WAT", ["OW", "HW1", "HW2", "MW"])] }

/-- Claim C6, witness: index 5 with only 4 atoms registered raises the
index-lookup failure. -/
theorem C6_witness : feed c6st "5 2 1" = .error "IndexError" :=
  (C6_theorem c6st "5 2 1" rfl rfl rfl).2 "WAT" ["OW", "HW1", "HW2", "MW"] "5" 5
    rfl rfl rfl rfl (by decide)

theorem feed_atomtypes_pdict (st : ITPState) (line : String) (rec : AtomTypeRecord)
    (r : FeedRet) (st' : ITPState)
    (hsec : st.sec = some "atomtypes") (hsk : isSkippable line = false)
    (hhd : isSectionHeader line = false)
    (hp : parse_atomtype_line line = .ok (some rec))
    (hok : feed st line = .ok (r, st')) :
    st'.pdict =
      if rec.bonus > 0 then
        setEntry (setEntry st.pdict "VDW" [(4 + rec.bonus, "S"), (5 + rec.bonus, "T")])
          "VDW_BHAM" [(4 + rec.bonus, "A"), (5 + rec.bonus, "B"), (6 + rec.bonus, "C")]
      else st.pdict := by
  unfold feed at hok
  rw [classify_atomtypes_eq st line hsk hhd hsec, hp] at hok
  dsimp only at hok
  cases hnb : st.nbtype with
  | none => rw [hnb] at hok; cases hok
  | some nb =>
    rw [hnb] at hok
    dsimp only at hok
    cases hpe : pyIndex nftypes nb with
    | none => rw [hpe] at hok; cases hok
    | some entry =>
      rw [hpe] at hok
      dsimp only at hok
      cases hok
      rfl

def c7post : ITPState :=
  { sec := some "nonbond_params", nbtype := some 1, res := none, adict := [],
    pdict := setEntry (setEntry pdict0 "VDW" [(5, "S"), (6, "T")]) "VDW_BHAM"
      [(5, "A"), (6, "B"), (7, "C")],
    itype := some "VPAIR", suffix := "NaNa", ln := 6 }

/-- Claim C7, counterexample: After a one-bonus `atomtypes` line, a
subsequent `nonbond_params` line resolves to interaction type `VPAIR`,
whose parameter entry is exactly the original `[(3, S), (4, T)]` — shifted
by 0, not 1 — even though the `VDW` entry itself did shift: the bonus
replacement touches only the `VDW`/`VDW_BHAM` entries, which
`nonbond_params` resolution never consults. -/
theorem C7_counterexample :
    feedLines initState ["[ defaults ]", "1 2 yes", "[ atomtypes ]",
        "Na 11 22.9897 0.0 A 6068.0 26.6", "[ nonbond_params ]", "Na Na 6.0 2.0"] =
      .ok c7post ∧
    c7post.itype = some "VPAIR" ∧
    alookup "VPAIR" c7post.pdict = alookup "VPAIR" pdict0 ∧
    alookup "VPAIR" c7post.pdict = some [(3, "S"), (4, "T")] ∧
    alookup "VDW" c7post.pdict = some [(5, "S"), (6, "T")] :=
  ⟨rfl, rfl, rfl, rfl, rfl⟩

/-- Claim C7, amended: After feeding an `atomtypes` line with exactly one
bonus field, the lookup entries for the van-der-Waals types `VDW` and
`VDW_BHAM` — consulted for subsequent `atomtypes` lines — are shifted by
exactly 1 relative to the zero-bonus tables `[(4, S), (5, T)]` and
`[(4, A), (5, B), (6, C)]`; the `VPAIR`/`VPAIR_BHAM` entries used by
`nonbond_params` lines are unchanged; and the replacement is idempotent:
a further same-bonus `atomtypes` line leaves the dictionary unchanged. -/
theorem C7_amended (st : ITPState) (line : String) (rec : AtomTypeRecord) (r : FeedRet)
    (st' : ITPState)
    (hsec : st.sec = some "atomtypes")
    (hsk : isSkippable line = false) (hhd : isSectionHeader line = false)
    (hp : parse_atomtype_line line = .ok (some rec)) (hb : rec.bonus = 1)
    (hok : feed st line = .ok (r, st')) :
    alookup "VDW" st'.pdict = some [(5, "S"), (6, "T")] ∧
    alookup "VDW_BHAM" st'.pdict = some [(5, "A"), (6, "B"), (7, "C")] ∧
    alookup "VPAIR" st'.pdict = alookup "VPAIR" st.pdict ∧
    alookup "VPAIR_BHAM" st'.pdict = alookup "VPAIR_BHAM" st.pdict ∧
    (∀ (line2 : String) (rec2 : AtomTypeRecord) (r2 : FeedRet) (st2 : ITPState),
      st'.sec = some "atomtypes" → isSkippable line2 = false → isSectionHeader line2 = false →
      parse_atomtype_line line2 = .ok (some rec2) → rec2.bonus = 1 →
      feed st' line2 = .ok (r2, st2) → st2.pdict = st'.pdict) := by
  have hpd := feed_atomtypes_pdict st line rec r st' hsec hsk hhd hp hok
  rw [hb] at hpd
  have h1 : alookup "VDW" st'.pdict = some [(5, "S"), (6, "T")] := by
    rw [hpd]
    show alookup "VDW"
      (setEntry (setEntry st.pdict "VDW" [(4 + 1, "S"), (5 + 1, "T")]) "VDW_BHAM"
        [(4 + 1, "A"), (5 + 1, "B"), (6 + 1, "C")]) = some [(5, "S"), (6, "T")]
    rw [alookup_setEntry_ne _ _ _ _ (by decide)]
    exact alookup_setEntry_self _ _ _
  have h2 : alookup "VDW_BHAM" st'.pdict = some [(5, "A"), (6, "B"), (7, "C")] := by
    rw [hpd]
    show alookup "VDW_BHAM"
      (setEntry (setEntry st.pdict "VDW" [(4 + 1, "S"), (5 + 1, "T")]) "VDW_BHAM"
        [(4 + 1, "A"), (5 + 1, "B"), (6 + 1, "C")]) = some [(5, "A"), (6, "B"), (7, "C")]
    exact alookup_setEntry_self _ _ _
  have h3 : alookup "VPAIR" st'.pdict = alookup "VPAIR" st.pdict := by
    rw [hpd]
    show alookup "VPAIR"
      (setEntry (setEntry st.pdict "VDW" [(4 + 1, "S"), (5 + 1, "T")]) "VDW_BHAM"
        [(4 + 1, "A"), (5 + 1, "B"), (6 + 1, "C")]) = alookup "VPAIR" st.pdict
    rw [alookup_setEntry_ne _ _ _ _ (by decide), alookup_setEntry_ne _ _ _ _ (by decide)]
  have h4 : alookup "VPAIR_BHAM" st'.pdict = alookup "VPAIR_BHAM" st.pdict := by
    rw [hpd]
    show alookup "VPAIR_BHAM"
      (setEntry (setEntry st.pdict "VDW" [(4 + 1, "S"), (5 + 1, "T")]) "VDW_BHAM"
        [(4 + 1, "A"), (5 + 1, "B"), (6 + 1, "C")]) = alookup "VPAIR_BHAM" st.pdict
    rw [alookup_setEntry_ne _ _ _ _ (by decide), alookup_setEntry_ne _ _ _ _ (by decide)]
  refine ⟨h1, h2, h3, h4, ?_⟩
  intro line2 rec2 r2 st2 hsec2 hsk2 hhd2 hp2 hb2 hok2
  have hpd2 := feed_atomtypes_pdict st' line2 rec2 r2 st2 hsec2 hsk2 hhd2 hp2 hok2
  rw [hb2] at hpd2
  rw [hpd2]
  show setEntry (setEntry st'.pdict "VDW" [(4 + 1, "S"), (5 + 1, "T")]) "VDW_BHAM"
      [(4 + 1, "A"), (5 + 1, "B"), (6 + 1, "C")] = st'.pdict
  rw [setEntry_eq_self st'.pdict "VDW" _ h1]
  rw [setEntry_eq_self st'.pdict "VDW_BHAM" _ h2]

def c7ast : ITPState := { initState with sec := some "atomtypes", nbtype := some 1 }

def c7rec : AtomTypeRecord :=
  { atomtype := "Na", batomtype := "Na", atomicnum := 11, mass := "22.9897", chg := "0.0",
    ptp := "A", param := ["6068.0", "26.6"], bonus := 1 }

def c7apost : ITPState :=
  { c7ast with
    pdict := setEntry (setEntry pdict0 "VDW" [(5, "S"), (6, "T")]) "VDW_BHAM"
      [(5, "A"), (6, "B"), (7, "C")],
    itype := some "VDW", ln := 1, suffix := "Na" }

/-- Claim C7, witness for the amended theorem at a concrete one-bonus line. -/
theorem C7_witness : alookup "VDW" c7apost.pdict = some [(5, "S"), (6, "T")] :=
  (C7_amended c7ast "Na 11 22.9897 0.0 A 6068.0 26.6" c7rec .nothing c7apost rfl rfl rfl
    rfl rfl rfl).1

/-- Claim C8, confirmed: An `atomtypes` line with zero bonus fields leaves the whole
parameter dictionary untouched, and no successful `feed` — in any section,
on any line — ever changes any dictionary entry other than the two
van-der-Waals entries `VDW` and `VDW_BHAM`. -/
theorem C8_theorem :
    (∀ (st : ITPState) (line : String) (rec : AtomTypeRecord) (r : FeedRet) (st' : ITPState),
      st.sec = some "atomtypes" → isSkippable line = false → isSectionHeader line = false →
      parse_atomtype_line line = .ok (some rec) → rec.bonus = 0 →
      feed st line = .ok (r, st') → st'.pdict = st.pdict) ∧
    (∀ (st : ITPState) (line : String) (r : FeedRet) (st' : ITPState),
      feed st line = .ok (r, st') →
      ∀ k : String, k ≠ "VDW" → k ≠ "VDW_BHAM" →
        alookup k st'.pdict = alookup k st.pdict) := by
  constructor
  · intro st line rec r st' hsec hsk hhd hp hb hok
    have hpd := feed_atomtypes_pdict st line rec r st' hsec hsk hhd hp hok
    rw [hb] at hpd
    simpa using hpd
  · intro st line r st' hok k h1 h2
    unfold feed at hok
    cases hcl : classify st line with
    | error e => rw [hcl] at hok; cases hok
    | ok o =>
      rw [hcl] at hok
      have hfr := classify_pdict_frame st line o hcl k h1 h2
      cases o with
      | early r2 st2 =>
        cases hok
        exact hfr
      | through st2 a =>
        cases hok
        exact hfr

def c8st : ITPState := { initState with sec := some "atomtypes", nbtype := some 1 }

def c8rec : AtomTypeRecord :=
  { atomtype := "C", batomtype := "C", atomicnum := -1, mass := "12.0107", chg := "0.0",
    ptp := "A", param := ["0.375", "0.439"], bonus := 0 }

def c8post : ITPState := { c8st with itype := some "VDW", ln := 1, suffix := "C" }

/-- Claim C8, witness: a concrete zero-bonus `atomtypes` line leaves the
dictionary untouched. -/
theorem C8_witness : c8post.pdict = c8st.pdict :=
  C8_theorem.1 c8st "C 12.0107 0.0 A 0.375 0.439" c8rec .nothing c8post rfl rfl rfl rfl
    rfl rfl

/-- Claim C10, implicit, confirmed: In a `bonds`/`angles`/`dihedrals`
atom-index lookup, the 1-based index token `"0"` does not raise an
index-lookup failure when the residue's table is non-empty: `int("0") - 1`
is `-1`, which Python list indexing resolves to the last registered atom
name; a whole `bonds` line `"0 0 c"` therefore succeeds with both tuple
entries equal to the last registered name. -/
theorem C10_theorem (adict : List (String × List String)) (r : String)
    (tbl : List String) (h : tbl ≠ []) (htbl : alookup r adict = some tbl) :
    (∀ idxs : List String,
      lookupAtoms adict (some r) ("0" :: idxs) =
        (lookupAtoms adict (some r) idxs).map (fun as => tbl.getLast h :: as)) ∧
    (∀ (st : ITPState) (line : String) (c : String),
      st.sec = some "bonds" → st.res = some r → st.adict = adict →
      isSkippable line = false → isSectionHeader line = false →
      pySplit line = ["0", "0", c] → pyInt c = some 1 →
      feed st line =
        .ok (.nothing,
          { st with itype := some "BONDS", ln := st.ln + 1,
                    suffix := pySuffix (.lst [tbl.getLast h, tbl.getLast h]) })) := by
  have hpi : pyIndex tbl ((0 : Int) - 1) = some (tbl.getLast h) := by
    unfold pyIndex
    rw [if_neg (by omega)]
    have hlen : 0 < tbl.length := List.length_pos.mpr h
    rw [if_pos (by omega)]
    show tbl.get? (tbl.length - 1) = some (tbl.getLast h)
    rw [List.get?_eq_getElem?, ← List.getLast?_eq_getElem?,
      List.getLast?_eq_getLast_of_ne_nil h]
  have hone : ∀ idxs : List String,
      lookupAtoms adict (some r) ("0" :: idxs) =
        (lookupAtoms adict (some r) idxs).map (fun as => tbl.getLast h :: as) := by
    intro idxs
    rw [lookupAtoms_cons adict r tbl "0" idxs htbl]
    rw [show pyInt "0" = some 0 from rfl]
    dsimp only
    rw [hpi]
    cases hres : lookupAtoms adict (some r) idxs <;> simp [Except.map]
  refine ⟨hone, ?_⟩
  intro st line c hsec hres hadt hsk hhd hs hci
  unfold feed
  rw [classify_bonds_eq st line hsk hhd hsec]
  have h2 : lookupAtoms st.adict st.res ((pySplit line).take 2) =
      .ok [tbl.getLast h, tbl.getLast h] := by
    rw [hs, hres, hadt]
    show lookupAtoms adict (some r) ["0", "0"] = .ok [tbl.getLast h, tbl.getLast h]
    rw [hone ["0"], hone []]
    rfl
  rw [h2]
  have h3 : (pySplit line).get? 2 = some c := by
    rw [hs]
    rfl
  rw [h3]
  dsimp only
  rw [hci]
  rfl

def c10st : ITPState :=
  { initState with sec := some "bonds", res := some "WAT", adict := [("WAT", ["OW", "HW1"])] }

/-- Claim C10, witness: the `bonds` line `"0 0 1"` with two atoms registered
resolves both indices to the last atom `HW1` without error. -/
theorem C10_witness :
    feed c10st "0 0 1" =
      .ok (.nothing,
        { c10st with itype := some "BONDS", ln := c10st.ln + 1,
                     suffix := pySuffix (.lst [(["OW", "HW1"] : List String).getLast (by decide),
                       (["OW", "HW1"] : List String).getLast (by decide)]) }) :=
  (C10_theorem [("WAT", ["OW", "HW1"])] "WAT" ["OW", "HW1"] (by decide) rfl).2 c10st "0 0 1"
    "1" rfl rfl rfl rfl rfl rfl rfl
